import Mathlib

/-!
# Verification of the VAM posters classification map (src/visualization.js)

Shallow embedding of the core logic of `src/visualization.js`:

* the batched classification pipeline (`processImagesInBatches`, lines 281-348),
* the spatial layout (`createParticleGroups` / `getSpiralCoordinates`,
  lines 350-473),
* the per-record asset-streaming state machine (`updateLOD`, lines 483-533,
  together with the texture-load callbacks of lines 436-455 and 502-520),
* the confidence filter (`filterImagesByConfidence`, lines 710-722),
* the auto-rotate controller (lines 20-24, 102-110, 469-472, 822-826).

JavaScript numbers are modelled by `ℚ` where the program only ever produces
rational values (confidences, progress percentages) and by `ℝ` where the
program computes with `Math.sqrt` / `Math.cos` / `Math.sin` (layout
coordinates, camera distances).  The string position key
`\x7b$x\x7d,\x7b$y\x7d,\x7b$z\x7d` is modelled by the coordinate triple itself:
JavaScript number-to-string conversion is injective, so two keys are equal
exactly when the two `(x, y, z)` triples are equal.
-/

/-! ## Constants (visualization.js lines 12-24) -/

/-- `const PARTICLE_SIZE = 5` (line 12). -/
def PARTICLE_SIZE : ℚ := 5

/-- `const SPACING = 10` (line 13), used by the layout, hence over `ℝ`. -/
def SPACING : ℝ := 10

/-- `const LOD_DISTANCE = 50` (line 17). -/
def LOD_DISTANCE : ℝ := 50

/-- `const BATCH_SIZE = 10` (line 282). -/
def BATCH_SIZE : ℕ := 10

/-- `const AUTO_ROTATE_RESUME_DELAY = 10000` (line 24), in milliseconds. -/
def AUTO_ROTATE_RESUME_DELAY : ℕ := 10000

/-- `setTimeout(() => \x7b autoRotate = true; \x7d, 8000)` delay
(line 470-472), in milliseconds. -/
def AUTO_ROTATE_WARMUP_DELAY : ℕ := 8000

/-! ## Classification pipeline (lines 281-348)

`processImagesInBatches(imageFiles, startIndex, categoriesMap)` walks the
manifest in slices of `BATCH_SIZE`.  For each image of the current slice it
builds a promise that

* on `img.onload` calls `classifier.classify(img).then(results => ...)`,
  pushing `\x7bfilename, confidence\x7d` into `categoriesMap[results[0].label]`
  and then resolving;
* on `img.onerror` logs and resolves immediately (the image is skipped).

Note that the `.then` chain has **no rejection handler**: if the
classification promise rejects, `resolve()` is never called, so that image's
promise stays pending forever and `Promise.all(promises)` for the batch never
settles.  The per-image asynchronous fate is captured by `Outcome` below, and
the whole recursion is embedded as a pure function from the outcome
environment to the list of issued progress reports plus the final
categories map (`none` when some batch never settles, in which case
`createParticleGroups` is never reached). -/

/-- One `\x7bfilename, confidence\x7d` element pushed into a category bucket
(lines 304-307). -/
structure ClassifiedImage where
  filename : String
  confidence : ℚ
deriving DecidableEq

/-- The `categoriesMap` object: an insertion-ordered association list from
category label to its bucket (JS object keys enumerate in insertion order). -/
abbrev CategoriesMap := List (String × List ClassifiedImage)

/-- The asynchronous fate of one image of the manifest:
`loadFail` - `img.onerror` fires (line 313);
`classifyFail` - the image loads but `classifier.classify` rejects, so the
`.then` callback never runs;
`ok label confidence` - the image loads and the top prediction is
`results[0]` with the given label and confidence (lines 297-309). -/
inductive Outcome where
  | loadFail : Outcome
  | classifyFail : Outcome
  | ok : String → ℚ → Outcome
deriving DecidableEq

/-- `if (!categoriesMap[category]) categoriesMap[category] = []` followed by
`categoriesMap[category].push(...)` (lines 300-307): append to the existing
bucket, or create a new bucket at the end of the insertion order. -/
def addToBucket (m : CategoriesMap) (label : String) (img : ClassifiedImage) :
    CategoriesMap :=
  match m with
  | [] => [(label, [img])]
  | (l, imgs) :: rest =>
      if l = label then (l, imgs ++ [img]) :: rest
      else (l, imgs) :: addToBucket rest label img

/-- The effect of one image's callbacks on `categoriesMap`: only a successful
load followed by a successful classification pushes a bucket entry; a load
failure or a classification rejection leaves the map unchanged. -/
def classifyStep (m : CategoriesMap) (file : String) (o : Outcome) :
    CategoriesMap :=
  match o with
  | Outcome.ok label conf => addToBucket m label ⟨file, conf⟩
  | _ => m

/-- `Promise.all(promises)` for a batch settles iff every per-image promise
resolves, i.e. no image of the batch has a rejecting classification request
(a rejected `classifier.classify` never calls `resolve`, lines 297-310;
`img.onerror` resolves, lines 313-316). -/
def batchSettles (oc : String → Outcome) (batch : List String) : Bool :=
  batch.all fun f => decide (oc f ≠ Outcome.classifyFail)

/-- `Math.round((endIndex / imageFiles.length) * 100)` (line 323).
`round` in Mathlib is `⌊x + 1/2⌋`, which agrees with JS `Math.round` on the
rational values produced here.  (For an empty manifest JS computes `NaN` here;
theorems about the reported value therefore assume a non-empty manifest.) -/
def reportedPercent (endIndex total : ℕ) : ℤ :=
  round ((endIndex : ℚ) / (total : ℚ) * 100)

/-- The progress report written to the `#progress` element when a batch is
issued (lines 322-325): the slice bounds and the displayed integer percent. -/
structure BatchReport where
  startIndex : ℕ
  endIndex : ℕ
  reported : ℤ
deriving DecidableEq

/-- `processImagesInBatches(imageFiles, startIndex, categoriesMap)`
(lines 281-348), as a pure function of the per-image outcome environment.

Returns the list of progress reports issued (one per batch, written *before*
`Promise.all` settles, lines 322-328) and the final categories map handed to
`createParticleGroups` — `none` when some batch's `Promise.all` never settles
and the pipeline stalls.  Bucket updates of a batch are applied in manifest
order (one admissible linearization of the concurrent callbacks; the claims
proved below do not depend on the within-batch completion order). -/
def processImagesInBatches (oc : String → Outcome) (imageFiles : List String)
    (startIndex : ℕ) (categoriesMap : CategoriesMap) :
    List BatchReport × Option CategoriesMap :=
  let endIndex := min (startIndex + BATCH_SIZE) imageFiles.length
  let batch := (imageFiles.drop startIndex).take BATCH_SIZE
  let m' := batch.foldl (fun acc f => classifyStep acc f (oc f)) categoriesMap
  let report : BatchReport :=
    ⟨startIndex, endIndex, reportedPercent endIndex imageFiles.length⟩
  if endIndex < imageFiles.length then
    if batchSettles oc batch then
      let rest := processImagesInBatches oc imageFiles endIndex m'
      (report :: rest.1, rest.2)
    else ([report], none)
  else
    ([report], if batchSettles oc batch then some m' else none)
termination_by imageFiles.length - startIndex
decreasing_by simp only [BATCH_SIZE] at *; omega

/-! ## Spatial layout (lines 350-473)

`createParticleGroups(categoriesMap)` sorts the categories by descending
member count (stable sort, lines 352-353), gives sorted index 0 the origin
and every later index a spiral anchor (`getSpiralCoordinates`,
lines 374-388), and lays the images of each category out on a
`cols = Math.ceil(Math.sqrt(count))` grid around the anchor (lines 399-418),
with the y coordinate equal to `confidence * 30` (lines 408-409).  Each
sprite is registered in the `imageData` map under the key
`\x7b$x\x7d,\x7b$y\x7d,\x7b$z\x7d` built from the very same `(x, y, z)`
assigned to `sprite.position` (lines 418-429); sprite positions are never
mutated afterwards. -/

/-- `const CATEGORY_SPACING_X = SPACING * 25` (line 359).
(`CATEGORY_SPACING_Z` has the same value, line 360.) -/
def CATEGORY_SPACING_X : ℝ := SPACING * 25

/-- `const radius = Math.sqrt(index) * CATEGORY_SPACING_X * 2` (line 382). -/
noncomputable def spiralRadius (index : ℕ) : ℝ :=
  Real.sqrt index * (CATEGORY_SPACING_X * 2)

/-- `getSpiralCoordinates(index, totalCategories)` (lines 374-388): index 0 is
placed at the grid center `(centerX, centerZ) = (0, 0)`; any other index is
placed at angle `index * 0.5` (line 381) and radius `spiralRadius index`. -/
noncomputable def getSpiralCoordinates (index : ℕ) : ℝ × ℝ :=
  if index = 0 then (0, 0)
  else (0 + spiralRadius index * Real.cos ((index : ℝ) * 0.5),
        0 + spiralRadius index * Real.sin ((index : ℝ) * 0.5))

/-- The integer value of `Math.ceil(Math.sqrt(images.length))` (line 399):
`Nat.sqrt n` when `n` is a perfect square, `Nat.sqrt n + 1` otherwise. -/
def gridCols (n : ℕ) : ℕ :=
  if Nat.sqrt n * Nat.sqrt n = n then Nat.sqrt n else Nat.sqrt n + 1

/-- The per-image record stored in the `imageData` map (lines 422-429):
filename, category, confidence, the sprite (represented by its immutable
`position`, the only sprite datum the layout claims need), and the two
streaming flags, both `false` at creation. -/
structure ImageRecord where
  filename : String
  category : String
  confidence : ℚ
  pos : ℝ × ℝ × ℝ
  loaded : Bool
  highQualityLoaded : Bool

/-- The sprite position of image number `i` (0-based) of a category with
`count` images anchored at `(categoryX, categoryZ)` (lines 403-409 and 418):
`x = categoryX + (i % cols) * SPACING - (cols * SPACING) / 2`,
`y = 0 + confidence * 30`,
`z = categoryZ + ⌊i / cols⌋ * SPACING - (⌊count / cols⌋ * SPACING) / 2`,
where `%`, `⌊·/·⌋` are the integer operations JS computes on these
integer-valued operands. -/
noncomputable def imagePosition (categoryX categoryZ : ℝ) (count i : ℕ)
    (conf : ℚ) : ℝ × ℝ × ℝ :=
  let cols := gridCols count
  (categoryX + (i % cols : ℕ) * SPACING - (cols * SPACING) / 2,
   0 + (conf : ℝ) * 30,
   categoryZ + (i / cols : ℕ) * SPACING - ((count / cols : ℕ) * SPACING) / 2)

/-- The `images.forEach((img, i) => ...)` body for one category
(lines 402-431): each image yields an `imageData` entry mapping its position
key to its `ImageRecord`. -/
noncomputable def layoutCategory (categoryIndex : ℕ) (category : String)
    (images : List ClassifiedImage) : List ((ℝ × ℝ × ℝ) × ImageRecord) :=
  let anchor := getSpiralCoordinates categoryIndex
  images.enum.map fun p =>
    let pos := imagePosition anchor.1 anchor.2 images.length p.1 p.2.confidence
    (pos, ⟨p.2.filename, category, p.2.confidence, pos, false, false⟩)

/-- `[...categoriesMap.entries()].sort((a, b) => b[1].length - a[1].length)`
(lines 352-353): stable sort by descending bucket size. -/
def sortedCategories (m : CategoriesMap) : CategoriesMap :=
  m.mergeSort fun a b => decide (b.2.length ≤ a.2.length)

/-- `createParticleGroups(categoriesMap)` restricted to the data the layout
claims are about: the `imageData` entries (position key and record) it
registers, in registration order (lines 350-463). -/
noncomputable def createParticleGroups (m : CategoriesMap) :
    List ((ℝ × ℝ × ℝ) × ImageRecord) :=
  (sortedCategories m).enum.flatMap fun p => layoutCategory p.1 p.2.1 p.2.2

/-- The key rebuilt at click time from the intersected sprite's position,
`` `$\x7bposition.x\x7d,$\x7bposition.y\x7d,$\x7bposition.z\x7d` ``
(line 754). -/
def rebuildKey (r : ImageRecord) : ℝ × ℝ × ℝ :=
  (r.pos.1, r.pos.2.1, r.pos.2.2)

/-! ## Asset streaming (creation-time loads lines 433-456, `updateLOD`
lines 483-533)

Per-record view of the streaming state machine.  One record owns its
`pendingTextures` keys (`filename` for the standard tier, `"hq_" + filename`
for the high tier) and its `highResTextures` cache slots; records with
distinct filenames do not interact through these maps.  The coalesced
`updateLOD` pass applies `streamStep · (lodUpdate d)` to every record, where
`d` is the camera distance to the record's position (line 494); texture-load
completions arrive later as their own events. -/

/-- The texture currently assigned to the sprite's material: the shared
placeholder (lines 26-35 and 412-414), the standard tier (lines 436-447), or
the high-fidelity tier loaded by `updateLOD` (lines 502-514). -/
inductive Tex where
  | placeholder : Tex
  | standard : Tex
  | high : Tex
deriving DecidableEq

/-- Streaming state of one record: current material texture, the `loaded` /
`highQualityLoaded` flags (lines 427-428), sprite visibility (lines 714-720),
confidence, whether the standard / high fetch is in `pendingTextures`, and
whether each tier is cached in `highResTextures`. -/
structure RecordState where
  material : Tex
  loaded : Bool
  highQualityLoaded : Bool
  visible : Bool
  confidence : ℚ
  stdPending : Bool
  hqPending : Bool
  stdCached : Bool
  hqCached : Bool
deriving DecidableEq

/-- A record right after creation (lines 411-435): placeholder material, both
flags false, visible, and the standard-tier fetch already issued
(`pendingTextures.add(img.filename)`, line 434). -/
def initialRecordState (conf : ℚ) : RecordState :=
  ⟨Tex.placeholder, false, false, true, conf, true, false, false, false⟩

/-- Events acting on one record's streaming state:
the standard-tier load success / error callbacks (lines 437-449 / 451-453),
the high-tier load success / error callbacks (lines 503-515 / 517-519), and
one coalesced `updateLOD` pass carrying the camera distance to this record
computed at line 494. -/
inductive StreamEv where
  | stdLoadSuccess : StreamEv
  | stdLoadError : StreamEv
  | hqLoadSuccess : StreamEv
  | hqLoadError : StreamEv
  | lodUpdate : ℝ → StreamEv

/-- One streaming step of a single record.

* `stdLoadSuccess` (lines 437-448): caches the standard texture in
  `highResTextures`, swaps it onto the sprite, marks `loaded`, clears the
  pending key.  Only an issued fetch can complete, hence the `stdPending`
  guard.
* `stdLoadError` (lines 451-453): only clears the pending key.
* `hqLoadSuccess` (lines 503-515): caches under `"hq_" + filename`, clears
  pending, swaps the high texture in, sets `highQualityLoaded`.
* `hqLoadError` (lines 517-519): only clears the pending key.
* `lodUpdate d` (lines 485-532): skips invisible sprites (line 489); inside
  the threshold with `highQualityLoaded` false it only *issues* the high
  fetch if not already pending (lines 497-521); at or beyond the threshold
  with `highQualityLoaded` true it swaps the cached standard texture back in
  — but only if `highResTextures.has(filename)` (lines 524-531). -/
noncomputable def streamStep (s : RecordState) (e : StreamEv) : RecordState :=
  match e with
  | StreamEv.stdLoadSuccess =>
      if s.stdPending = true then
        { s with material := Tex.standard, loaded := true,
                 stdCached := true, stdPending := false }
      else s
  | StreamEv.stdLoadError => { s with stdPending := false }
  | StreamEv.hqLoadSuccess =>
      if s.hqPending = true then
        { s with material := Tex.high, highQualityLoaded := true,
                 hqCached := true, hqPending := false }
      else s
  | StreamEv.hqLoadError => { s with hqPending := false }
  | StreamEv.lodUpdate d =>
      if s.visible = false then s
      else if d < LOD_DISTANCE ∧ s.highQualityLoaded = false then
        (if s.hqPending = false then { s with hqPending := true } else s)
      else if LOD_DISTANCE ≤ d ∧ s.highQualityLoaded = true then
        (if s.stdCached = true then
          { s with material := Tex.standard, highQualityLoaded := false }
        else s)
      else s

/-- `camera.position.distanceTo(position)` (lines 492-494): Euclidean
distance, with the position parsed back from the key — which equals the
stored coordinate triple. -/
noncomputable def distanceTo (camera p : ℝ × ℝ × ℝ) : ℝ :=
  Real.sqrt ((camera.1 - p.1) ^ 2 + (camera.2.1 - p.2.1) ^ 2
    + (camera.2.2 - p.2.2) ^ 2)

/-- One coalesced `updateLOD()` pass (lines 483-533) over all records, each
identified by its position: per record, a `lodUpdate` step at the camera
distance to that record's position. -/
noncomputable def updateLOD (camera : ℝ × ℝ × ℝ)
    (recs : List (RecordState × (ℝ × ℝ × ℝ))) :
    List (RecordState × (ℝ × ℝ × ℝ)) :=
  recs.map fun p => (streamStep p.1 (StreamEv.lodUpdate (distanceTo camera p.2)), p.2)

/-! ## Confidence filter (lines 710-722) -/

/-- `filterImagesByConfidence(threshold)` (lines 710-722): every record's
sprite becomes visible iff `data.confidence >= threshold`. -/
def filterImagesByConfidence (threshold : ℚ) (recs : List RecordState) :
    List RecordState :=
  recs.map fun data =>
    if data.confidence ≥ threshold then { data with visible := true }
    else { data with visible := false }

/-! ## Auto-rotate controller (lines 20-24, 102-110, 469-472, 822-826)

Mutable state: `autoRotate` (line 20), `userInteracted` (line 22),
`lastUserInteractionTime` (line 23, **initialized to 0**), and the pending
8-second warm-up timer scheduled by `createParticleGroups` (lines 470-472).
Events carry the wall-clock time (ms, as `Date.now()`) at which they run. -/

/-- The auto-rotate globals. `rotateEnableAt` is the pending warm-up timer:
`some t` means a `setTimeout` callback will set `autoRotate = true` once the
clock reaches `t`. -/
structure UiState where
  autoRotate : Bool
  userInteracted : Bool
  lastUserInteractionTime : ℕ
  rotateEnableAt : Option ℕ
deriving DecidableEq

/-- Initial values of the globals (lines 20-23): rotation off, no interaction
recorded, last interaction time 0, no warm-up timer scheduled. -/
def initialUiState : UiState := ⟨false, false, 0, none⟩

/-- Events of the auto-rotate controller:
`layoutDone` — `createParticleGroups` finishes and schedules the warm-up
timer (lines 470-472); `interactStart` / `interactEnd` — the controls'
`start` / `end` listeners (lines 102-110); `rotateTimer` — the scheduled
warm-up callback fires; `frame` — one `animate()` tick (lines 818-826). -/
inductive UiEv where
  | layoutDone : UiEv
  | interactStart : UiEv
  | interactEnd : UiEv
  | rotateTimer : UiEv
  | frame : UiEv
deriving DecidableEq

/-- One auto-rotate controller step at wall-clock time `t`:

* `layoutDone`: schedules `autoRotate = true` for `t + 8000` (lines 470-472);
* `interactStart`: `userInteracted = true; autoRotate = false`
  (lines 102-105);
* `interactEnd`: `lastUserInteractionTime = Date.now()` (lines 108-110);
* `rotateTimer`: the warm-up callback fires once its scheduled time is due,
  setting `autoRotate = true` unconditionally (line 471);
* `frame`: `if (userInteracted && !autoRotate && Date.now() -
  lastUserInteractionTime > AUTO_ROTATE_RESUME_DELAY) \x7b autoRotate = true;
  userInteracted = false; \x7d` (lines 823-826). -/
def uiStep (s : UiState) (e : UiEv) (t : ℕ) : UiState :=
  match e with
  | UiEv.layoutDone =>
      { s with rotateEnableAt := some (t + AUTO_ROTATE_WARMUP_DELAY) }
  | UiEv.interactStart => { s with userInteracted := true, autoRotate := false }
  | UiEv.interactEnd => { s with lastUserInteractionTime := t }
  | UiEv.rotateTimer =>
      match s.rotateEnableAt with
      | some te =>
          if te ≤ t then { s with autoRotate := true, rotateEnableAt := none }
          else s
      | none => s
  | UiEv.frame =>
      if s.userInteracted = true ∧ s.autoRotate = false ∧
          s.lastUserInteractionTime + AUTO_ROTATE_RESUME_DELAY < t then
        { s with autoRotate := true, userInteracted := false }
      else s

/-- Run the auto-rotate controller over a timed event trace. -/
def runUi (s : UiState) (trace : List (UiEv × ℕ)) : UiState :=
  trace.foldl (fun st p => uiStep st p.1 p.2) s

/-! ## Theorems -/

/-- C1: the claim says a classification-request failure skips the image and
still lets the batch's joint promise settle.  The code disagrees: with the
one-image manifest `["a.jpg"]`, if the classification request for `"a.jpg"`
rejects, the batch's `Promise.all` never settles and the pipeline never
delivers a categories map (first conjunct); by contrast a *load* failure on
the same manifest is indeed skipped — the pipeline settles with an empty map
and no bucket entry for the image (second conjunct). -/
theorem c1_classify_failure_stalls_pipeline :
    (processImagesInBatches (fun _ => Outcome.classifyFail) ["a.jpg"] 0 []).2
        = none ∧
    processImagesInBatches (fun _ => Outcome.loadFail) ["a.jpg"] 0 []
        = ([⟨0, 1, 100⟩], some []) := by
  constructor
  · rw [processImagesInBatches]
    norm_num [batchSettles, reportedPercent, BATCH_SIZE]
  · rw [processImagesInBatches]
    norm_num [batchSettles, reportedPercent, classifyStep, BATCH_SIZE, round_eq]
    decide

/-- Structural facts about the pipeline trace, proved for every call site by
induction on the number of unprocessed images: the first report of
`processImagesInBatches oc files startIndex m` starts at `startIndex`; every
report covers the slice `[startIndex, min (startIndex + BATCH_SIZE) total)`
and displays `Math.round(100 * endIndex / total)`; and consecutive reports
chain (`next.startIndex = prev.endIndex`), a successor batch being issued
only after the previous batch's `Promise.all` settled. -/
lemma processImagesInBatches_trace (oc : String → Outcome)
    (files : List String) :
    ∀ n startIndex m, files.length - startIndex ≤ n →
    ((processImagesInBatches oc files startIndex m).1.head?.map
        BatchReport.startIndex = some startIndex) ∧
    (∀ r ∈ (processImagesInBatches oc files startIndex m).1,
        r.endIndex = min (r.startIndex + BATCH_SIZE) files.length ∧
        r.reported = reportedPercent r.endIndex files.length) ∧
    List.Chain' (fun a b => a.endIndex = b.startIndex ∧
        batchSettles oc ((files.drop a.startIndex).take BATCH_SIZE) = true)
      (processImagesInBatches oc files startIndex m).1 := by
  intro n
  induction n with
  | zero =>
    intro startIndex m h
    rw [processImagesInBatches]
    have hle : files.length ≤ startIndex := by omega
    have hmin : min (startIndex + BATCH_SIZE) files.length = files.length := by
      simp only [BATCH_SIZE]; omega
    simp only [hmin, if_neg (lt_irrefl files.length)]
    refine ⟨rfl, ?_, ?_⟩
    · intro r hr
      simp only [List.mem_singleton] at hr
      subst hr
      exact ⟨hmin.symm, rfl⟩
    · simp
  | succ n ih =>
    intro startIndex m h
    rw [processImagesInBatches]
    by_cases h1 : min (startIndex + BATCH_SIZE) files.length < files.length
    · have hend : min (startIndex + BATCH_SIZE) files.length
          = startIndex + BATCH_SIZE := by omega
      simp only [if_pos h1]
      by_cases h2 : batchSettles oc ((files.drop startIndex).take BATCH_SIZE)
          = true
      · simp only [if_pos h2]
        have hrec := ih (startIndex + BATCH_SIZE)
          (((files.drop startIndex).take BATCH_SIZE).foldl
            (fun acc f => classifyStep acc f (oc f)) m)
          (by simp only [BATCH_SIZE] at *; omega)
        rw [hend]
        refine ⟨rfl, ?_, ?_⟩
        · intro r hr
          simp only [List.mem_cons] at hr
          rcases hr with hr | hr
          · subst hr
            exact ⟨hend.symm, rfl⟩
          · exact hrec.2.1 r hr
        · rw [List.chain'_cons']
          refine ⟨?_, hrec.2.2⟩
          intro b hb
          have hhead := hrec.1
          rcases hh : (processImagesInBatches oc files (startIndex + BATCH_SIZE)
              (((files.drop startIndex).take BATCH_SIZE).foldl
                (fun acc f => classifyStep acc f (oc f)) m)).1.head? with _ | b'
          · rw [hh] at hb; simp at hb
          · rw [hh] at hb hhead
            simp at hhead hb
            subst hb
            exact ⟨hhead.symm, h2⟩
      · simp only [if_neg h2]
        refine ⟨rfl, ?_, ?_⟩
        · intro r hr
          simp only [List.mem_singleton] at hr
          subst hr
          exact ⟨rfl, rfl⟩
        · simp
    · simp only [if_neg h1]
      refine ⟨rfl, ?_, ?_⟩
      · intro r hr
        simp only [List.mem_singleton] at hr
        subst hr
        exact ⟨rfl, rfl⟩
      · simp

/-- C7 (amended): for every manifest and outcome environment, the pipeline
processes the manifest in sequential slices of size at most `BATCH_SIZE = 10`
(consecutive reports chain, the first starting at index 0, each covering
`[startIndex, min (startIndex + 10) total)`), a batch is issued only after
the previous batch's `Promise.all` settled, and the progress displayed for a
batch is the rounded integer percentage `Math.round(100 * endIndex / total)`
— written when the batch is *issued*, and in general different from the
exact fraction `completed / total` of the original claim. -/
theorem c7_amended_batching (oc : String → Outcome) (imageFiles : List String)
    (hne : imageFiles ≠ []) :
    ((processImagesInBatches oc imageFiles 0 []).1.head?.map
        BatchReport.startIndex = some 0) ∧
    (∀ r ∈ (processImagesInBatches oc imageFiles 0 []).1,
        r.endIndex - r.startIndex ≤ BATCH_SIZE ∧
        r.endIndex = min (r.startIndex + BATCH_SIZE) imageFiles.length ∧
        r.reported = reportedPercent r.endIndex imageFiles.length) ∧
    List.Chain' (fun a b => a.endIndex = b.startIndex ∧
        batchSettles oc ((imageFiles.drop a.startIndex).take BATCH_SIZE)
          = true)
      (processImagesInBatches oc imageFiles 0 []).1 := by
  have htr := processImagesInBatches_trace oc imageFiles imageFiles.length 0 []
    (by omega)
  refine ⟨htr.1, ?_, htr.2.2⟩
  intro r hr
  have h := htr.2.1 r hr
  exact ⟨by omega, h.1, h.2⟩

/-- Witness for `c7_amended_batching` at a concrete two-image manifest. -/
theorem c7_amended_batching_witness :
    (["a.jpg", "b.jpg"] ≠ ([] : List String)) ∧
    ((processImagesInBatches (fun _ => Outcome.ok "cat" 1)
        ["a.jpg", "b.jpg"] 0 []).1.head?.map BatchReport.startIndex
      = some 0) :=
  ⟨by decide,
    (c7_amended_batching (fun _ => Outcome.ok "cat" 1) ["a.jpg", "b.jpg"]
      (by decide)).1⟩

/-- C7 (counterexample to the claim as stated): for a 12-image manifest whose
images all classify successfully, the first batch completes 10 of 12 images,
so `completed / total = 10 / 12`; but the code reports
`Math.round((10 / 12) * 100) = 83` percent, and `83 / 100 ≠ 10 / 12` — the
reported fractional progress does not equal `completed / total`. -/
theorem c7_progress_not_exact_fraction :
    ((processImagesInBatches (fun _ => Outcome.ok "poster" (1/2))
        ["f01", "f02", "f03", "f04", "f05", "f06",
         "f07", "f08", "f09", "f10", "f11", "f12"] 0 []).1.head?.map
      BatchReport.reported = some 83) ∧
    ((83 : ℚ) / 100 ≠ 10 / 12) := by
  constructor
  · rw [processImagesInBatches]
    norm_num [batchSettles, reportedPercent, BATCH_SIZE, round_eq]
    rw [if_neg (by decide : ¬(Outcome.ok "poster" (1/2)
      = Outcome.classifyFail))]
    simp
  · norm_num

/-- Squared distance of a spiral anchor from the origin: exactly
`(CATEGORY_SPACING_X * 2) ^ 2 * index`, for every index (including 0). -/
lemma normSq_getSpiralCoordinates (k : ℕ) :
    (getSpiralCoordinates k).1 ^ 2 + (getSpiralCoordinates k).2 ^ 2
      = (CATEGORY_SPACING_X * 2) ^ 2 * k := by
  by_cases hk : k = 0
  · subst hk; simp [getSpiralCoordinates]
  · simp only [getSpiralCoordinates, if_neg hk, spiralRadius]
    have h1 : Real.sqrt (k : ℝ) * Real.sqrt (k : ℝ) = (k : ℝ) :=
      Real.mul_self_sqrt (by positivity)
    have h2 := Real.cos_sq_add_sin_sq ((k : ℝ) * 0.5)
    linear_combination
      ((CATEGORY_SPACING_X * 2) ^ 2
        * (Real.cos ((k : ℝ) * 0.5) ^ 2 + Real.sin ((k : ℝ) * 0.5) ^ 2)) * h1
      + ((CATEGORY_SPACING_X * 2) ^ 2 * (k : ℝ)) * h2

/-- C6: the layout's category anchors follow the claimed spiral: sorted index
0 anchors at the origin; every index `k ≥ 1` anchors at
`origin + (radius k * cos(k * 0.5), radius k * sin(k * 0.5))` with
`radius k = √k * (CATEGORY_SPACING_X * 2)` a fixed multiple of `√k` and
`k * 0.5` a fixed angular step per index; the radius is strictly increasing
in the index, so no two category anchors coincide; and the stable descending
sort puts a category of maximal member count first, so the largest category
receives anchor index 0, the origin. -/
theorem c6_spiral_anchor_structure :
    getSpiralCoordinates 0 = (0, 0) ∧
    (∀ k : ℕ, 1 ≤ k → getSpiralCoordinates k
        = (0 + spiralRadius k * Real.cos ((k : ℝ) * 0.5),
           0 + spiralRadius k * Real.sin ((k : ℝ) * 0.5))) ∧
    (∀ j k : ℕ, j < k → spiralRadius j < spiralRadius k) ∧
    (∀ j k : ℕ, j ≠ k → getSpiralCoordinates j ≠ getSpiralCoordinates k) ∧
    (∀ (m : CategoriesMap) (hd : String × List ClassifiedImage)
        (tl : CategoriesMap), sortedCategories m = hd :: tl →
        ∀ c ∈ sortedCategories m, c.2.length ≤ hd.2.length) := by
  refine ⟨by simp [getSpiralCoordinates], ?_, ?_, ?_, ?_⟩
  · intro k hk
    rw [getSpiralCoordinates, if_neg (by omega)]
  · intro j k hjk
    have hC : (0 : ℝ) < CATEGORY_SPACING_X * 2 := by
      norm_num [CATEGORY_SPACING_X, SPACING]
    exact mul_lt_mul_of_pos_right
      (Real.sqrt_lt_sqrt (Nat.cast_nonneg j) (by exact_mod_cast hjk)) hC
  · intro j k hjk h
    apply hjk
    have h2 : (CATEGORY_SPACING_X * 2) ^ 2 * (j : ℝ)
        = (CATEGORY_SPACING_X * 2) ^ 2 * (k : ℝ) := by
      rw [← normSq_getSpiralCoordinates, ← normSq_getSpiralCoordinates, h]
    have hC : ((CATEGORY_SPACING_X * 2) ^ 2 : ℝ) ≠ 0 := by
      norm_num [CATEGORY_SPACING_X, SPACING]
    have : (j : ℝ) = (k : ℝ) := mul_left_cancel₀ hC h2
    exact_mod_cast this
  · intro m hd tl heq c hc
    have hs := @List.sorted_mergeSort (String × List ClassifiedImage)
      (fun a b => decide (b.2.length ≤ a.2.length))
      (by intro a b c hab hbc; simp at hab hbc ⊢; omega)
      (by intro a b; simp [Bool.or_eq_true]; omega) m
    rw [show m.mergeSort (fun a b : String × List ClassifiedImage =>
        decide (b.2.length ≤ a.2.length)) = sortedCategories m from rfl,
      heq] at hs
    rw [heq] at hc
    rcases List.pairwise_cons.mp hs with ⟨hhd, _⟩
    rcases List.mem_cons.mp hc with hc | hc
    · subst hc; exact le_refl _
    · have := hhd c hc
      simpa using this

/-- Witness for `c6_spiral_anchor_structure`: indices 0 and 1 have strictly
increasing radii and distinct anchors, and in the one-category map the head
of the sorted list bounds every bucket size. -/
theorem c6_spiral_anchor_structure_witness :
    (0 : ℕ) ≠ 1 ∧
    spiralRadius 0 < spiralRadius 1 ∧
    getSpiralCoordinates 0 ≠ getSpiralCoordinates 1 ∧
    (∀ c ∈ sortedCategories [("a", [⟨"a.jpg", 1⟩])],
      c.2.length ≤ ([⟨"a.jpg", 1⟩] : List ClassifiedImage).length) :=
  ⟨by decide,
   c6_spiral_anchor_structure.2.2.1 0 1 (by decide),
   c6_spiral_anchor_structure.2.2.2.1 0 1 (by decide),
   c6_spiral_anchor_structure.2.2.2.2 [("a", [⟨"a.jpg", 1⟩])]
     ("a", [⟨"a.jpg", 1⟩]) [] (by simp [sortedCategories])⟩

/-- Within one category, the image index is recoverable from the sprite
position: two images of the same category (same anchor, same count) placed at
the same position have the same index.  This is the within-category half of
the position-key collision-freedom invariant: distinct images of one category
always get distinct keys.  (Across categories the question reduces to the
irrationality of the spiral anchor offsets `√k · cos(k/2) · 500` etc., which
is not decided here.) -/
lemma imagePosition_index_inj (cx cz : ℝ) (count i j : ℕ) (ci cj : ℚ)
    (h : imagePosition cx cz count i ci = imagePosition cx cz count j cj) :
    i = j := by
  simp only [imagePosition, Prod.mk.injEq] at h
  obtain ⟨h1, h2, h3⟩ := h
  have hm : i % gridCols count = j % gridCols count := by
    have hc : ((i % gridCols count : ℕ) : ℝ) = ((j % gridCols count : ℕ) : ℝ) := by
      simp only [SPACING] at h1
      linarith
    exact_mod_cast hc
  have hd : i / gridCols count = j / gridCols count := by
    have hc : ((i / gridCols count : ℕ) : ℝ) = ((j / gridCols count : ℕ) : ℝ) := by
      simp only [SPACING] at h3
      linarith
    exact_mod_cast hc
  calc i = gridCols count * (i / gridCols count) + i % gridCols count :=
        (Nat.div_add_mod i _).symm
    _ = gridCols count * (j / gridCols count) + j % gridCols count := by
        rw [hm, hd]
    _ = j := Nat.div_add_mod j _

/-- C3 (amended): a category holding exactly one image places it not at the
anchor but at `anchor + (-SPACING/2, confidence * 30, -SPACING/2)`: the grid
centering terms `-(cols * SPACING) / 2` shift it half a cell in x and z, and
the confidence elevation lifts y.  For the one-category input the anchor is
indeed the origin, and the sole image sits at `(-5, 30 * confidence, -5)`. -/
theorem c3_single_image_offset_from_anchor (categoryIndex : ℕ)
    (category : String) (img : ClassifiedImage) :
    (layoutCategory categoryIndex category [img]).map Prod.fst
      = [((getSpiralCoordinates categoryIndex).1 - SPACING / 2,
          (img.confidence : ℝ) * 30,
          (getSpiralCoordinates categoryIndex).2 - SPACING / 2)] ∧
    createParticleGroups [(category, [img])]
      = [(((-5 : ℝ), (img.confidence : ℝ) * 30, (-5 : ℝ)),
          ⟨img.filename, category, img.confidence,
            ((-5 : ℝ), (img.confidence : ℝ) * 30, (-5 : ℝ)), false, false⟩)] ∧
    getSpiralCoordinates 0 = (0, 0) := by
  have hcols : gridCols 1 = 1 := by decide
  have horigin : getSpiralCoordinates 0 = (0, 0) := by
    simp [getSpiralCoordinates]
  refine ⟨?_, ?_, horigin⟩
  · simp [layoutCategory, imagePosition, hcols, SPACING]
  · simp [createParticleGroups, sortedCategories, layoutCategory,
      imagePosition, hcols, horigin, SPACING]
    norm_num

/-- C3 (counterexample to the claim as stated): for the single-category,
single-image input `[("a", [("a.jpg", 0)])]` the anchor is the origin, but
the image's grid position is `(-5, 0, -5)`, which differs from the anchor —
the image is *not* placed exactly at the category's anchor coordinate. -/
theorem c3_single_image_not_at_anchor :
    getSpiralCoordinates 0 = (0, 0) ∧
    (createParticleGroups [("a", [⟨"a.jpg", 0⟩])]).map Prod.fst
      = [((-5 : ℝ), (0 : ℝ), (-5 : ℝ))] ∧
    ((-5 : ℝ), (0 : ℝ), (-5 : ℝ)) ≠ ((0 : ℝ), (0 : ℝ), (0 : ℝ)) := by
  have hcols : gridCols 1 = 1 := by decide
  have horigin : getSpiralCoordinates 0 = (0, 0) := by
    simp [getSpiralCoordinates]
  refine ⟨horigin, ?_, by norm_num⟩
  simp [createParticleGroups, sortedCategories, layoutCategory,
    imagePosition, hcols, horigin, SPACING]
  norm_num

/-- Every `imageData` entry stores the record whose sprite position is
exactly the entry's key: the key string and `sprite.position` are built from
the same `(x, y, z)` (lines 418-421), and positions are never mutated. -/
lemma createParticleGroups_pos_eq_key (m : CategoriesMap)
    (e : (ℝ × ℝ × ℝ) × ImageRecord) (he : e ∈ createParticleGroups m) :
    e.2.pos = e.1 := by
  simp only [createParticleGroups, List.mem_flatMap] at he
  obtain ⟨p, hp, he⟩ := he
  simp only [layoutCategory, List.mem_map] at he
  obtain ⟨q, hq, rfl⟩ := he
  rfl

/-- C10: for every layout-created entry, rebuilding the position key from the
sprite's position components (as `onClick` does at line 754) yields exactly
the key under which the record was stored (first conjunct), so the
`imageData.get(key)` lookup finds an entry — the lookup-miss branch is
unreachable for layout-created sprites (second conjunct); and as long as keys
are pairwise distinct (the collision-freedom invariant, claim C2), the entry
found is the sprite's own record (third conjunct). -/
theorem c10_position_key_roundtrip (m : CategoriesMap)
    (e : (ℝ × ℝ × ℝ) × ImageRecord) (he : e ∈ createParticleGroups m) :
    rebuildKey e.2 = e.1 ∧
    (∃ e' ∈ createParticleGroups m, e'.1 = rebuildKey e.2) ∧
    ((createParticleGroups m).Pairwise (fun a b => a.1 ≠ b.1) →
      ∀ e' ∈ createParticleGroups m, e'.1 = rebuildKey e.2 → e' = e) := by
  have hpos : rebuildKey e.2 = e.1 := createParticleGroups_pos_eq_key m e he
  refine ⟨hpos, ⟨e, he, hpos.symm ▸ rfl⟩, ?_⟩
  intro hpw e' he' hk
  by_contra hne
  have hsymm : Symmetric
      (fun a b : (ℝ × ℝ × ℝ) × ImageRecord => a.1 ≠ b.1) := by
    intro a b hab
    exact Ne.symm hab
  exact (List.Pairwise.forall hsymm hpw he' he hne) (hk.trans hpos)

/-- Witness for `c10_position_key_roundtrip` on the one-image layout. -/
theorem c10_position_key_roundtrip_witness :
    rebuildKey ⟨"a.jpg", "a", 0, ((-5 : ℝ), (0 : ℝ), (-5 : ℝ)), false, false⟩
      = ((-5 : ℝ), (0 : ℝ), (-5 : ℝ)) :=
  (c10_position_key_roundtrip [("a", [⟨"a.jpg", 0⟩])]
    (((-5 : ℝ), (0 : ℝ), (-5 : ℝ)),
      ⟨"a.jpg", "a", 0, ((-5 : ℝ), (0 : ℝ), (-5 : ℝ)), false, false⟩)
    (by
      have hcols : gridCols 1 = 1 := by decide
      have horigin : getSpiralCoordinates 0 = (0, 0) := by
        simp [getSpiralCoordinates]
      simp [createParticleGroups, sortedCategories, layoutCategory,
        imagePosition, hcols, horigin, SPACING]
      norm_num)).1

/-- No streaming step ever assigns the shared placeholder texture: if a
record's material is the placeholder after a step, it already was before. -/
lemma streamStep_no_placeholder_assign (s : RecordState) (e : StreamEv)
    (h : (streamStep s e).material = Tex.placeholder) :
    s.material = Tex.placeholder := by
  cases e <;> simp only [streamStep] at h <;> (try split_ifs at h) <;>
    simp_all

/-- Non-placeholder material is preserved by any sequence of streaming
steps. -/
lemma foldl_streamStep_no_placeholder (evs : List StreamEv) :
    ∀ s : RecordState, s.material ≠ Tex.placeholder →
      (evs.foldl streamStep s).material ≠ Tex.placeholder := by
  induction evs with
  | nil => intro s h; simpa using h
  | cons e rest ih =>
      intro s h
      simp only [List.foldl_cons]
      exact ih (streamStep s e)
        (fun hp => h (streamStep_no_placeholder_assign s e hp))

/-- C8: once a record's visual has left the shared placeholder (in
particular once the Standard tier is reached), no streaming step — texture
completion or LOD update — ever assigns the placeholder again: a single step
yields the placeholder only if it was already there, and along any event
sequence a non-placeholder material stays non-placeholder.  (High may be
demoted to Standard, lines 524-531, but the demotion swaps in the cached
standard texture, never the placeholder.) -/
theorem c8_standard_never_back_to_placeholder (s : RecordState) :
    (∀ e : StreamEv, (streamStep s e).material = Tex.placeholder →
        s.material = Tex.placeholder) ∧
    (s.material ≠ Tex.placeholder → ∀ evs : List StreamEv,
        (evs.foldl streamStep s).material ≠ Tex.placeholder) :=
  ⟨fun e => streamStep_no_placeholder_assign s e,
   fun h evs => foldl_streamStep_no_placeholder evs s h⟩

/-- Witness for `c8_standard_never_back_to_placeholder`: a record in the
Standard tier stays off the placeholder across a promotion and a demotion
attempt. -/
theorem c8_standard_never_back_to_placeholder_witness :
    ((⟨Tex.standard, true, false, true, 1/2, false, false, true, false⟩ :
        RecordState).material ≠ Tex.placeholder) ∧
    (([StreamEv.lodUpdate 10, StreamEv.hqLoadSuccess,
        StreamEv.lodUpdate 100].foldl streamStep
        ⟨Tex.standard, true, false, true, 1/2, false, false, true, false⟩
      ).material ≠ Tex.placeholder) :=
  ⟨by decide,
   (c8_standard_never_back_to_placeholder
      ⟨Tex.standard, true, false, true, 1/2, false, false, true, false⟩).2
    (by decide) _⟩

/-- C4 (amended): what one coalesced LOD update actually does to a visible
record:

* at distance `≥ LOD_DISTANCE` in High with the standard texture cached, it
  demotes: swaps the cached standard texture in, clears `highQualityLoaded`,
  and issues no new fetch (the pending flags are unchanged in the resulting
  record);
* at distance `≥ LOD_DISTANCE` in High *without* the cached standard texture
  (e.g. the standard fetch failed), it does nothing — the record is left in
  High, contradicting the original claim;
* strictly inside the threshold and not High, it does not transition the
  record synchronously: it only marks the high-tier fetch pending (the
  material is unchanged until `hqLoadSuccess` arrives), or does nothing if
  the fetch is already pending. -/
theorem c4_amended_lod_update (s : RecordState) (d : ℝ) :
    (s.visible = true → s.highQualityLoaded = true → LOD_DISTANCE ≤ d →
      s.stdCached = true →
      streamStep s (StreamEv.lodUpdate d)
        = { s with material := Tex.standard, highQualityLoaded := false }) ∧
    (s.visible = true → s.highQualityLoaded = true → LOD_DISTANCE ≤ d →
      s.stdCached = false →
      streamStep s (StreamEv.lodUpdate d) = s) ∧
    (s.visible = true → s.highQualityLoaded = false → d < LOD_DISTANCE →
      s.hqPending = false →
      streamStep s (StreamEv.lodUpdate d) = { s with hqPending := true }) ∧
    (s.visible = true → s.highQualityLoaded = false → d < LOD_DISTANCE →
      s.hqPending = true →
      streamStep s (StreamEv.lodUpdate d) = s) := by
  refine ⟨?_, ?_, ?_, ?_⟩
  · intro h1 h2 h3 h4
    simp only [streamStep]
    rw [if_neg (by simp [h1]), if_neg (by simp [h2, not_lt.mpr h3]),
      if_pos ⟨h3, h2⟩, if_pos h4]
  · intro h1 h2 h3 h4
    simp only [streamStep]
    rw [if_neg (by simp [h1]), if_neg (by simp [h2, not_lt.mpr h3]),
      if_pos ⟨h3, h2⟩, if_neg (by simp [h4])]
  · intro h1 h2 h3 h4
    simp only [streamStep]
    rw [if_neg (by simp [h1]), if_pos ⟨h3, h2⟩, if_pos h4]
  · intro h1 h2 h3 h4
    simp only [streamStep]
    rw [if_neg (by simp [h1]), if_pos ⟨h3, h2⟩, if_neg (by simp [h4])]

/-- Witness for `c4_amended_lod_update`: concrete demotion at distance 100
with the standard texture cached. -/
theorem c4_amended_lod_update_witness :
    streamStep
        (⟨Tex.high, true, true, true, 1/2, false, false, true, true⟩ :
          RecordState) (StreamEv.lodUpdate 100)
      = { (⟨Tex.high, true, true, true, 1/2, false, false, true, true⟩ :
          RecordState) with
          material := Tex.standard, highQualityLoaded := false } :=
  (c4_amended_lod_update
    ⟨Tex.high, true, true, true, 1/2, false, false, true, true⟩ 100).1
    rfl rfl (by norm_num [LOD_DISTANCE]) rfl

/-- C4 (counterexample to the claim as stated): a reachable execution leaves
a visible record in High after an LOD update at distance 100 (strictly above
the threshold 50).  Trace from creation: the standard-tier fetch fails
(`stdLoadError`, so nothing is cached under the record's filename), a close
LOD pass issues the high fetch, it completes (`hqLoadSuccess`), and a far LOD
pass at distance 100 then finds `highResTextures.has(filename)` false and
leaves the record in High. -/
theorem c4_left_in_high_beyond_threshold :
    LOD_DISTANCE ≤ (100 : ℝ) ∧
    (([StreamEv.stdLoadError, StreamEv.lodUpdate 10, StreamEv.hqLoadSuccess,
        StreamEv.lodUpdate 100].foldl streamStep
        (initialRecordState (1/2))).visible = true ∧
     ([StreamEv.stdLoadError, StreamEv.lodUpdate 10, StreamEv.hqLoadSuccess,
        StreamEv.lodUpdate 100].foldl streamStep
        (initialRecordState (1/2))).highQualityLoaded = true ∧
     ([StreamEv.stdLoadError, StreamEv.lodUpdate 10, StreamEv.hqLoadSuccess,
        StreamEv.lodUpdate 100].foldl streamStep
        (initialRecordState (1/2))).material = Tex.high) := by
  have e1 : streamStep
      (⟨Tex.placeholder, false, false, true, 1/2, true, false, false, false⟩ :
        RecordState) StreamEv.stdLoadError
      = ⟨Tex.placeholder, false, false, true, 1/2, false, false, false,
          false⟩ := rfl
  have e2 : streamStep
      (⟨Tex.placeholder, false, false, true, 1/2, false, false, false,
          false⟩ : RecordState) (StreamEv.lodUpdate 10)
      = ⟨Tex.placeholder, false, false, true, 1/2, false, true, false,
          false⟩ := by
    norm_num [streamStep, LOD_DISTANCE]
  have e3 : streamStep
      (⟨Tex.placeholder, false, false, true, 1/2, false, true, false,
          false⟩ : RecordState) StreamEv.hqLoadSuccess
      = ⟨Tex.high, false, true, true, 1/2, false, false, false, true⟩ := by
    norm_num [streamStep]
  have e4 : streamStep
      (⟨Tex.high, false, true, true, 1/2, false, false, false, true⟩ :
        RecordState) (StreamEv.lodUpdate 100)
      = ⟨Tex.high, false, true, true, 1/2, false, false, false, true⟩ := by
    norm_num [streamStep, LOD_DISTANCE]
  have hfold : [StreamEv.stdLoadError, StreamEv.lodUpdate 10,
      StreamEv.hqLoadSuccess, StreamEv.lodUpdate 100].foldl streamStep
      (initialRecordState (1/2))
      = ⟨Tex.high, false, true, true, 1/2, false, false, false, true⟩ := by
    simp only [List.foldl_cons, List.foldl_nil, initialRecordState]
    rw [e1, e2, e3, e4]
  refine ⟨by norm_num [LOD_DISTANCE], ?_, ?_, ?_⟩ <;> rw [hfold]

/-- Re-filtering overrides the previous visibility wholesale: filtering
after filtering (with any thresholds) equals filtering once with the second
threshold, since the filter only reads the confidence, which it never
changes. -/
lemma filterImagesByConfidence_twice (t u : ℚ) (recs : List RecordState) :
    filterImagesByConfidence u (filterImagesByConfidence t recs)
      = filterImagesByConfidence u recs := by
  induction recs with
  | nil => rfl
  | cons a rest ih =>
      simp only [filterImagesByConfidence, List.map_cons] at ih ⊢
      by_cases h2 : a.confidence ≥ u
      · by_cases h1 : a.confidence ≥ t <;> simp [h1, h2, ih]
      · by_cases h1 : a.confidence ≥ t <;> simp [h1, h2, ih]

/-- C5: after `filterImagesByConfidence t` runs with a threshold
`t ∈ [0, 1]`, a record's sprite is visible iff its confidence is `≥ t`;
re-running the same threshold is the identity on the result (idempotence);
and raising the threshold never makes an invisible record visible — for
`t ≤ u`, every record visible under `u` is visible under `t`, pointwise over
the record list (equivalently: lowering the threshold never hides a visible
record). -/
theorem c5_confidence_filter (t : ℚ) (ht0 : 0 ≤ t) (ht1 : t ≤ 1)
    (recs : List RecordState) :
    (∀ r ∈ filterImagesByConfidence t recs,
      (r.visible = true ↔ t ≤ r.confidence)) ∧
    filterImagesByConfidence t (filterImagesByConfidence t recs)
      = filterImagesByConfidence t recs ∧
    (∀ u : ℚ, t ≤ u →
      List.Forall₂ (fun a b => a.visible = true → b.visible = true)
        (filterImagesByConfidence u recs)
        (filterImagesByConfidence t recs)) := by
  refine ⟨?_, ?_, ?_⟩
  · intro r hr
    simp only [filterImagesByConfidence, List.mem_map] at hr
    obtain ⟨a, _, rfl⟩ := hr
    split_ifs with h
    · exact ⟨fun _ => h, fun _ => rfl⟩
    · exact iff_of_false (by simp) h
  · exact filterImagesByConfidence_twice t t recs
  · intro u htu
    induction recs with
    | nil => simp [filterImagesByConfidence]
    | cons a rest ih =>
        simp only [filterImagesByConfidence, List.map_cons] at ih ⊢
        refine List.Forall₂.cons ?_ ih
        by_cases h : a.confidence ≥ u
        · have ht2 : a.confidence ≥ t := le_trans htu h
          simp [h, ht2]
        · simp [h]

/-- Witness for `c5_confidence_filter` at threshold 1/2 over two records with
confidences 1/5 and 9/10. -/
theorem c5_confidence_filter_witness :
    ((0 : ℚ) ≤ 1/2) ∧ ((1/2 : ℚ) ≤ 1) ∧
    (∀ r ∈ filterImagesByConfidence (1/2)
        [⟨Tex.placeholder, false, false, true, 1/5, true, false, false,
            false⟩,
         ⟨Tex.placeholder, false, false, true, 9/10, true, false, false,
            false⟩],
      (r.visible = true ↔ (1/2 : ℚ) ≤ r.confidence)) :=
  ⟨by norm_num, by norm_num,
    (c5_confidence_filter (1/2) (by norm_num) (by norm_num)
      [⟨Tex.placeholder, false, false, true, 1/5, true, false, false, false⟩,
       ⟨Tex.placeholder, false, false, true, 9/10, true, false, false,
          false⟩]).1⟩

/-- C9 (amended): what the auto-rotate controller actually guarantees:

* an interaction start sets `autoRotate` to `false` in the same event
  (immediate cancellation — the half of the claim that holds);
* a `frame` can set `autoRotate` to `true` only when an interaction has been
  recorded and more than `AUTO_ROTATE_RESUME_DELAY` ms have passed since
  `lastUserInteractionTime` — which is the time of the last interaction
  *end* event, or its initial value 0 if no end was ever recorded, so the
  resume is not tied to the warm-up window or to the drag being over;
* the warm-up timer scheduled by layout completion fires only once its
  scheduled time `layout time + AUTO_ROTATE_WARMUP_DELAY` is due, and then
  enables rotation unconditionally;
* an interaction end only records its timestamp. -/
theorem c9_amended_autorotate (s : UiState) (t : ℕ) :
    ((uiStep s UiEv.interactStart t).autoRotate = false) ∧
    ((uiStep s UiEv.frame t).autoRotate = true →
      s.autoRotate = true ∨ (s.userInteracted = true ∧
        s.lastUserInteractionTime + AUTO_ROTATE_RESUME_DELAY < t)) ∧
    ((uiStep s UiEv.rotateTimer t).autoRotate = true →
      s.autoRotate = true ∨
        (∃ te, s.rotateEnableAt = some te ∧ te ≤ t)) ∧
    ((uiStep s UiEv.layoutDone t).rotateEnableAt
      = some (t + AUTO_ROTATE_WARMUP_DELAY)) ∧
    ((uiStep s UiEv.interactEnd t).lastUserInteractionTime = t ∧
      (uiStep s UiEv.interactEnd t).autoRotate = s.autoRotate) := by
  refine ⟨rfl, ?_, ?_, rfl, rfl, rfl⟩
  · simp only [uiStep]
    split_ifs with h
    · intro _
      right
      exact ⟨h.1, h.2.2⟩
    · intro hh
      left
      exact hh
  · cases hre : s.rotateEnableAt with
    | none => simp [uiStep, hre]
    | some te =>
        simp only [uiStep, hre]
        split_ifs with h
        · intro _
          right
          exact ⟨te, rfl, h⟩
        · intro hh
          left
          exact hh

/-- Witness for `c9_amended_autorotate`: a frame at time 20000 after an
interaction start (with no end ever recorded) re-enables rotation, and the
theorem attributes it to the resume guard. -/
theorem c9_amended_autorotate_witness :
    ((uiStep ⟨false, true, 0, none⟩ UiEv.frame 20000).autoRotate = true) ∧
    ((⟨false, true, 0, none⟩ : UiState).autoRotate = true ∨
      ((⟨false, true, 0, none⟩ : UiState).userInteracted = true ∧
        (⟨false, true, 0, none⟩ : UiState).lastUserInteractionTime
          + AUTO_ROTATE_RESUME_DELAY < 20000)) :=
  ⟨by decide,
   (c9_amended_autorotate ⟨false, true, 0, none⟩ 20000).2.1 (by decide)⟩

/-- C9 (counterexample to the claim as stated): layout completes at time
1000000 (warm-up until 1008000); the user starts dragging at 1000100 (no end
event yet, so `lastUserInteractionTime` is still its initial value 0); on the
very next frame at 1000116 the animate loop finds
`Date.now() - lastUserInteractionTime > 10000` and sets `autoRotate = true` —
inside the warm-up window, during an ongoing drag, with no idle delay since
the interaction ended. -/
theorem c9_rotate_enabled_inside_warmup :
    (runUi initialUiState
        [(UiEv.layoutDone, 1000000), (UiEv.interactStart, 1000100),
         (UiEv.frame, 1000116)]).autoRotate = true ∧
    1000116 < 1000000 + AUTO_ROTATE_WARMUP_DELAY := by
  constructor
  · decide
  · norm_num [AUTO_ROTATE_WARMUP_DELAY]
